import Mathlib

/-!
Verification development for the `eos_switchport` Ansible module
(`src/library/eos_switchport.py`): a declarative reconciliation engine for a
switchport resource.  Python strings are embedded as `List Char`, Python
`dict`s of attribute values as association lists, and the stateful engine
(`EosAnsibleModule.flush` / `update` / `__init__`) as explicit state passing
over an `EosAnsibleModule` structure that records every remote call in a trace.  The
remote device is abstracted as an oracle (`Env`) giving the successive results
of instance resolution and the behaviour of each `set_<attr>` function.
-/

/-- A Python string, embedded as its list of characters. -/
abbrev PyStr := List Char

deriving instance DecidableEq for Except

/-- The decimal digit character for `n < 10` (model of Python's `str` on a digit):
codepoint 48 is `0`. -/
def digitChar (n : Nat) : Char := Char.ofNat (48 + n)

/-- The numeric value of a decimal digit character, `none` on any other
character. -/
def digitVal (c : Char) : Option Nat :=
  if 48 ≤ c.toNat ∧ c.toNat ≤ 57 then some (c.toNat - 48) else none

/-- Decimal digits of `n`, most significant first; `fuel` bounds the recursion
(any `fuel > n` is enough). -/
def natDigitsAux : Nat → Nat → List Char
  | _, 0 => []
  | n, fuel + 1 =>
    if n < 10 then [digitChar n]
    else natDigitsAux (n / 10) fuel ++ [digitChar (n % 10)]

/-- Decimal digits of `n`, most significant first (model of Python `str(n)` for `n ≥ 0`). -/
def natDigits (n : Nat) : List Char := natDigitsAux n (n + 1)

/-- Accumulator loop of decimal parsing: consumes digit characters, failing on
any non-digit. -/
def parseNatCore : List Char → Nat → Option Nat
  | [], acc => some acc
  | c :: cs, acc =>
    match digitVal c with
    | some d => parseNatCore cs (acc * 10 + d)
    | none => none

/-- Parse a nonempty all-digit string as a natural number. -/
def parseNat (l : List Char) : Option Nat :=
  match l with
  | [] => none
  | _ => parseNatCore l 0

/-- Model of Python `int(x)`: an optional leading minus sign followed by a
nonempty digit string; `none` models a raised `ValueError`. -/
def parseInt (t : PyStr) : Option Int :=
  match t with
  | [] => none
  | c :: rest =>
    if c = '-' then
      match parseNat rest with
      | some n => some (-(n : Int))
      | none => none
    else
      match parseNat (c :: rest) with
      | some n => some ((n : Int))
      | none => none

/-- Model of Python `int(x)` as a fallible computation carrying the
`ValueError` message. -/
def parseIntE (t : PyStr) : Except PyStr Int :=
  match parseInt t with
  | some n => Except.ok n
  | none => Except.error ("invalid literal for int(): ".data ++ t)

/-- Model of Python `str(n)` for an integer. -/
def renderInt (n : Int) : PyStr :=
  if n < 0 then '-' :: natDigits (-n).toNat else natDigits n.toNat

/-- Parse every token of a list with `int()`, failing on the first bad token
(the list comprehension `[int(x) for x in ...]`). -/
def parseAll : List PyStr → Except PyStr (List Int)
  | [] => Except.ok []
  | t :: ts =>
    match parseIntE t with
    | Except.error e => Except.error e
    | Except.ok n =>
      match parseAll ts with
      | Except.error e => Except.error e
      | Except.ok ns => Except.ok (n :: ns)

/-- `sort_vlans` (src/library/eos_switchport.py:501): split the argument on
commas, parse each token with `int`, sort ascending, render and re-join.
Python's `sorted` on integers is modeled by `List.insertionSort (· ≤ ·)`. -/
def sort_vlans (arg : PyStr) : Except PyStr PyStr :=
  match parseAll (arg.splitOn ',') with
  | Except.error e => Except.error e
  | Except.ok ns =>
    Except.ok (List.intercalate [','] ((List.insertionSort (· ≤ ·) ns).map renderInt))

/-- Modelled from the spec: a single comma-token of `pyeapi.utils.expand_range`
(the pyeapi library is not part of this repository): either a plain integer, or
`a-b` expanding to the integers from `a` to `b` inclusive. -/
def expandToken (t : PyStr) : Except PyStr (List Int) :=
  match t.splitOn '-' with
  | [a] =>
    match parseIntE a with
    | Except.error e => Except.error e
    | Except.ok x => Except.ok [x]
  | [a, b] =>
    match parseIntE a, parseIntE b with
    | Except.ok x, Except.ok y =>
      Except.ok ((List.range (y + 1 - x).toNat).map (fun i => x + i))
    | Except.error e, _ => Except.error e
    | _, Except.error e => Except.error e
  | _ => Except.error ("invalid range token: ".data ++ t)

/-- Modelled from the spec: the token loop of `pyeapi.utils.expand_range`,
accumulating the expansion of each comma-token. -/
def expandTokens : List PyStr → Except PyStr (List Int)
  | [] => Except.ok []
  | t :: ts =>
    match expandToken t with
    | Except.error e => Except.error e
    | Except.ok xs =>
      match expandTokens ts with
      | Except.error e => Except.error e
      | Except.ok ys => Except.ok (xs ++ ys)

/-- Modelled from the spec: the integer values produced by
`pyeapi.utils.expand_range` before they are rendered back to strings. -/
def expandInts (v : PyStr) : Except PyStr (List Int) :=
  expandTokens (v.splitOn ',')

/-- Modelled from the spec: `pyeapi.utils.expand_range` — expand a comma list
of integers and `a-b` ranges into the explicit list of decimal strings. -/
def expand_range (v : PyStr) : Except PyStr (List PyStr) :=
  match expandInts v with
  | Except.error e => Except.error e
  | Except.ok ns => Except.ok (ns.map renderInt)

/-- Lexicographic comparison of Python strings (model of Python `<=` on `str`,
used by `sorted` on a list of strings). -/
def pyStrLe : PyStr → PyStr → Bool
  | [], _ => true
  | _ :: _, [] => false
  | a :: as, b :: bs => if a = b then pyStrLe as bs else decide (a < b)

/-- A Python attribute value: `none` is Python `None`. -/
abbrev Value := Option PyStr

/-- A Python `dict` of attributes, as an association list with unique keys in
insertion order. -/
abbrev AttrMap := List (String × Value)

/-- Python `dict.get(k)`: the stored value, or `None` when the key is absent. -/
def AttrMap.get : AttrMap → String → Value
  | [], _ => none
  | p :: rest, k => if p.1 == k then p.2 else AttrMap.get rest k

/-- `validate_trunk_groups` (src/library/eos_switchport.py:583): `None` for a
falsy value, otherwise the comma-split tokens sorted and re-joined. -/
def validate_trunk_groups (value : Value) : Value :=
  match value with
  | none => none
  | some v =>
    if v.isEmpty then none
    else some (List.intercalate [','] (List.insertionSort (fun a b => pyStrLe a b = true) (v.splitOn ',')))

/-- `validate_trunk_allowed_vlans` (src/library/eos_switchport.py:591): `None`
for a falsy value, otherwise range-expand, re-join and `sort_vlans`. -/
def validate_trunk_allowed_vlans : Value → Except PyStr Value
  | none => Except.ok none
  | some v =>
    if v.isEmpty then Except.ok none
    else
      match expand_range v with
      | Except.error e => Except.error e
      | Except.ok toks =>
        match sort_vlans (List.intercalate [','] toks) with
        | Except.error e => Except.error e
        | Except.ok s => Except.ok (some s)

/-- The raw switchport state returned by the device API
(`module.node.api('switchports').get(name)`). -/
structure RawSwitchport where
  mode : PyStr
  access_vlan : PyStr
  trunk_native_vlan : PyStr
  trunk_allowed_vlans : PyStr
  trunk_groups : List PyStr

/-- `instance` (src/library/eos_switchport.py:508): resolve the actual state;
absent when the device returns nothing, otherwise the canonicalized attribute
map (trunk_allowed_vlans range-expanded and sorted, trunk_groups joined). -/
def instanceOf (name : PyStr) : Option RawSwitchport → Except PyStr AttrMap
  | none => Except.ok [("name", some name), ("state", some "absent".data)]
  | some r =>
    match expand_range r.trunk_allowed_vlans with
    | Except.error e => Except.error e
    | Except.ok toks =>
      match sort_vlans (List.intercalate [','] toks) with
      | Except.error e => Except.error e
      | Except.ok tav =>
        Except.ok [("name", some name), ("state", some "present".data),
          ("mode", some r.mode), ("access_vlan", some r.access_vlan),
          ("trunk_native_vlan", some r.trunk_native_vlan),
          ("trunk_allowed_vlans", some tav),
          ("trunk_groups", some (List.intercalate [','] r.trunk_groups))]

/-- One remote interaction performed through the node connection. -/
inductive Call where
  | connect : Call
  | query : Call
  | create : Call
  | remove : Call
  | set : String → Call
deriving DecidableEq, Repr

/-- `true` exactly on the calls that mutate remote state. -/
def Call.isMutation : Call → Bool
  | Call.create => true
  | Call.remove => true
  | Call.set _ => true
  | _ => false

/-- The remote device and module-function registry, abstracted as an oracle:
`resolveSeq n` is the canonicalized attribute map produced by the `n`-th
invocation of the module-level `instance` function; `hasSetter k` tells
whether `globals()` contains a `set_<k>` function; `setterFails k` tells
whether invoking that setter raises. -/
structure Env where
  resolveSeq : Nat → AttrMap
  hasSetter : String → Bool
  setterFails : String → Bool

/-- The mutable state of an `EosAnsibleModule` during one invocation, plus the
trace of remote calls made so far. -/
structure EosAnsibleModule where
  stateful : Bool
  checkMode : Bool
  debugFlag : Bool
  desiredState : Option PyStr
  attributes : AttrMap
  instCache : Option AttrMap
  resolveCount : Nat
  changedFlag : Bool
  changesRes : AttrMap
  instanceRes : Option AttrMap
  trace : List Call
deriving DecidableEq

/-- The `instance` property (src/library/eos_switchport.py:269): return the
cached actual state, or resolve it through the device and cache it. -/
def getInstance (env : Env) (m : EosAnsibleModule) : AttrMap × EosAnsibleModule :=
  match m.instCache with
  | some i => (i, m)
  | none =>
    let i := env.resolveSeq m.resolveCount
    (i, { m with instCache := some i, resolveCount := m.resolveCount + 1,
                 trace := m.trace ++ [Call.query] })

/-- `refresh` (src/library/eos_switchport.py:480): invalidate the cached
actual state. -/
def refresh (m : EosAnsibleModule) : EosAnsibleModule := { m with instCache := none }

/-- `create` (src/library/eos_switchport.py:324): call the module-level
`create` function unless running in check mode. -/
def doCreate (m : EosAnsibleModule) : EosAnsibleModule :=
  if m.checkMode then m else { m with trace := m.trace ++ [Call.create] }

/-- `remove` (src/library/eos_switchport.py:331): call the module-level
`remove` function unless running in check mode. -/
def doRemove (m : EosAnsibleModule) : EosAnsibleModule :=
  if m.checkMode then m else { m with trace := m.trace ++ [Call.remove] }

/-- The set-difference of dict items, `desired.viewitems() - actual.viewitems()`
(src/library/eos_switchport.py:350), kept in desired order. -/
def itemsDiff (d a : AttrMap) : AttrMap :=
  d.filter (fun kv => !(decide (kv ∈ a)))

/-- Python `dict.update`: overwrite existing keys in place, append new ones. -/
def dictUpdate (m other : AttrMap) : AttrMap :=
  (m.map fun p =>
    match other.find? (fun q => q.1 == p.1) with
    | some q => (p.1, q.2)
    | none => p)
  ++ other.filter (fun q => !(m.any (fun p => p.1 == q.1)))

/-- The result of `EosAnsibleModule.update`: the `changes` dict it built, the
call trace, and the message of the first setter failure (which `self.fail`
turns into a fatal `fail_json`). -/
structure UpdResult where
  changes : AttrMap
  trace : List Call
  err : Option PyStr

/-- `update` (src/library/eos_switchport.py:388): for each changeset pair with
a non-`None` value, record it in `changes`, then — when a `set_<key>` function
exists and check mode is off — invoke it; the first setter exception aborts
the loop through `self.fail`. -/
def update (env : Env) (checkMode : Bool) : List (String × Value) → AttrMap → List Call → UpdResult
  | [], changes, trace => ⟨changes, trace, none⟩
  | (_, none) :: rest, changes, trace => update env checkMode rest changes trace
  | (k, some v) :: rest, changes, trace =>
    let changes := changes ++ [(k, some v)]
    if env.hasSetter k && !checkMode then
      if env.setterFails k then
        ⟨changes, trace, some (("CommandError: set_" ++ k).data)⟩
      else
        update env checkMode rest changes (trace ++ [Call.set k])
    else
      update env checkMode rest changes trace

/-- The tail of `flush` (src/library/eos_switchport.py:378): final cache
invalidation, and a re-resolved debug snapshot only when debug is enabled. -/
def finalize (env : Env) (m : EosAnsibleModule) : EosAnsibleModule :=
  let m := refresh m
  if m.debugFlag then
    let (inst, m') := getInstance env m
    { m' with instanceRes := some inst }
  else m

/-- `flush` (src/library/eos_switchport.py:338): the reconciliation pass.  The
second component is `none` on success (the caller receives the result dict via
`exit_json`) and `some msg` when `self.fail` ran (the caller receives only the
message via `fail_json`; the result dict is not delivered).  The module-level
`globals()` of this source file contain no `flush` function, so the
`self.func('flush')` hook is a no-op and is not modeled. -/
def flush (env : Env) (m : EosAnsibleModule) : EosAnsibleModule × Option PyStr :=
  if m.desiredState = some "present".data ∨ m.stateful = false then
    let (inst₀, m) := getInstance env m
    let m :=
      if AttrMap.get inst₀ "state" = some "absent".data then
        refresh { (doCreate m) with changedFlag := true }
      else m
    let (inst, m) := getInstance env m
    let changeset := itemsDiff m.attributes inst
    let u := update env m.checkMode changeset [] m.trace
    match u.err with
    | some msg => ({ m with trace := u.trace }, some msg)
    | none =>
      let m := { m with trace := u.trace }
      let m :=
        if u.changes.isEmpty then m
        else { m with changesRes := u.changes, changedFlag := true }
      let m := { m with attributes := dictUpdate m.attributes u.changes }
      (finalize env m, none)
  else if m.desiredState = some "absent".data ∧ m.stateful = true then
    let (inst, m) := getInstance env m
    let m :=
      if AttrMap.get inst "state" = some "present".data then
        { (doRemove m) with changedFlag := true }
      else m
    (finalize env m, none)
  else
    let (inst, m) := getInstance env m
    if m.desiredState ≠ AttrMap.get inst "state" then
      ({ m with trace := m.trace }, some "unsupported state".data)
    else
      (finalize env m, none)

/-- Apply the registered validator for one attribute
(`self.func('validate_%s' % key)` in src/library/eos_switchport.py:318): the
module-level `globals()` register validators exactly for `trunk_groups` and
`trunk_allowed_vlans`. -/
def runValidator (k : String) (v : Value) : Except PyStr Value :=
  if k = "trunk_groups" then Except.ok (validate_trunk_groups v)
  else if k = "trunk_allowed_vlans" then validate_trunk_allowed_vlans v
  else Except.ok v

/-- `validate` (src/library/eos_switchport.py:318): replace each attribute
value by its validated form; a validator exception propagates immediately. -/
def validateAttrs : AttrMap → Except PyStr AttrMap
  | [] => Except.ok []
  | (k, v) :: rest =>
    match runValidator k v with
    | Except.error e => Except.error e
    | Except.ok v' =>
      match validateAttrs rest with
      | Except.error e => Except.error e
      | Except.ok rest' => Except.ok ((k, v') :: rest')

/-- Whether the device connection can be established (`node.enable('show
version')` succeeding in `EosConnection.connect` and
`EosAnsibleModule.connect`). -/
structure InitEnv where
  connectFails : Bool

/-- `EosAnsibleModule.__init__` (src/library/eos_switchport.py:218): map the
argument spec to attributes, run the validators, then connect (twice: once
through `EosConnection.connect`, once through `self.connect`).  On abort the
error carries the message and the list of remote calls completed before the
abort: a validator failure propagates before any connection attempt, and a
connection failure aborts with `unable to connect` before any query or
mutation. -/
def initModule (env : InitEnv) (stateful checkMode debugFlag : Bool)
    (attrs : AttrMap) : Except (PyStr × List Call) EosAnsibleModule :=
  match validateAttrs attrs with
  | Except.error msg => Except.error (msg, [])
  | Except.ok vattrs =>
    if env.connectFails then
      Except.error ("unable to connect to node".data, [])
    else
      Except.ok
        { stateful := stateful, checkMode := checkMode, debugFlag := debugFlag,
          desiredState := if stateful then AttrMap.get vattrs "state" else none,
          attributes := vattrs,
          instCache := none, resolveCount := 0,
          changedFlag := false, changesRes := [], instanceRes := none,
          trace := [Call.connect, Call.connect] }

/-- The entries of a changeset that `update` records into `changes`: exactly
those whose value is not `None`. -/
def recordedChanges (l : AttrMap) : AttrMap := l.filter (fun kv => kv.2.isSome)

/-- The device calls `update` makes for a changeset: one `set_<key>` call per
non-`None` entry that has a registered setter, when check mode is off. -/
def setCalls (env : Env) (cm : Bool) (l : AttrMap) : List Call :=
  l.filterMap (fun kv =>
    match kv.2 with
    | some _ => if env.hasSetter kv.1 && !cm then some (Call.set kv.1) else none
    | none => none)

/-- A device oracle for a converged access port whose setters never fail. -/
def c1Env : Env :=
  { resolveSeq := fun _ => [("name", some "Ethernet1".data), ("state", some "present".data),
      ("mode", some "access".data), ("access_vlan", some "10".data)],
    hasSetter := fun k => k == "mode" || k == "access_vlan",
    setterFails := fun _ => false }

/-- A stateful module whose desired attributes equal the resolved state. -/
def c1Mod : EosAnsibleModule :=
  { stateful := true, checkMode := false, debugFlag := false,
    desiredState := some "present".data,
    attributes := [("name", some "Ethernet1".data), ("state", some "present".data),
      ("mode", some "access".data), ("access_vlan", some "10".data)],
    instCache := none, resolveCount := 0,
    changedFlag := false, changesRes := [], instanceRes := none, trace := [] }

/-- A device oracle where the port is first resolved absent and, after
creation, present with the EOS default mode. -/
def c5Env : Env :=
  { resolveSeq := fun n =>
      if n = 0 then [("name", some "Ethernet1".data), ("state", some "absent".data)]
      else [("name", some "Ethernet1".data), ("state", some "present".data),
            ("mode", some "access".data)],
    hasSetter := fun k => k == "mode",
    setterFails := fun _ => false }

/-- A stateful module that wants the port present in trunk mode. -/
def c5Mod : EosAnsibleModule :=
  { stateful := true, checkMode := false, debugFlag := false,
    desiredState := some "present".data,
    attributes := [("name", some "Ethernet1".data), ("state", some "present".data),
      ("mode", some "trunk".data)],
    instCache := none, resolveCount := 0,
    changedFlag := false, changesRes := [], instanceRes := none, trace := [] }

/-- A device oracle reporting the port present, with no setters registered. -/
def c6Env : Env :=
  { resolveSeq := fun _ => [("name", some "Ethernet1".data), ("state", some "present".data)],
    hasSetter := fun _ => false,
    setterFails := fun _ => false }

/-- A stateful module that wants the port absent. -/
def c6Mod : EosAnsibleModule :=
  { stateful := true, checkMode := false, debugFlag := false,
    desiredState := some "absent".data,
    attributes := [("name", some "Ethernet1".data), ("state", some "absent".data)],
    instCache := none, resolveCount := 0,
    changedFlag := false, changesRes := [], instanceRes := none, trace := [] }

/-- A device oracle reporting the port absent, for a stateless module. -/
def c7Env : Env :=
  { resolveSeq := fun _ => [("name", some "Ethernet1".data), ("state", some "absent".data)],
    hasSetter := fun _ => false,
    setterFails := fun _ => false }

/-- A module constructed with presence tracking disabled. -/
def c7Mod : EosAnsibleModule :=
  { stateful := false, checkMode := false, debugFlag := false,
    desiredState := none,
    attributes := [("name", some "Ethernet1".data)],
    instCache := none, resolveCount := 0,
    changedFlag := false, changesRes := [], instanceRes := none, trace := [] }

/-- A device oracle where `set_mode` succeeds and `set_access_vlan` raises. -/
def c4Env : Env :=
  { resolveSeq := fun _ => [("name", some "Ethernet1".data), ("state", some "present".data),
      ("mode", some "access".data), ("access_vlan", some "1".data)],
    hasSetter := fun k => k == "mode" || k == "access_vlan",
    setterFails := fun k => k == "access_vlan" }

/-- A stateful module whose changeset has two entries, `mode` then
`access_vlan`. -/
def c4Mod : EosAnsibleModule :=
  { stateful := true, checkMode := false, debugFlag := false,
    desiredState := some "present".data,
    attributes := [("name", some "Ethernet1".data), ("state", some "present".data),
      ("mode", some "trunk".data), ("access_vlan", some "10".data)],
    instCache := none, resolveCount := 0,
    changedFlag := false, changesRes := [], instanceRes := none, trace := [] }

/-- A device oracle with no registered setters at all. -/
def c10Env : Env :=
  { resolveSeq := fun _ => [("name", some "Ethernet1".data), ("state", some "present".data)],
    hasSetter := fun _ => false,
    setterFails := fun _ => false }

/-- A stateful module desiring a trunk mode the actual state lacks. -/
def c10Mod : EosAnsibleModule :=
  { stateful := true, checkMode := false, debugFlag := false,
    desiredState := some "present".data,
    attributes := [("name", some "Ethernet1".data), ("state", some "present".data),
      ("mode", some "trunk".data)],
    instCache := none, resolveCount := 0,
    changedFlag := false, changesRes := [], instanceRes := none, trace := [] }

/-! ### Properties of the decimal rendering and parsing model -/

theorem digitVal_digitChar {d : Nat} (h : d < 10) : digitVal (digitChar d) = some d := by
  interval_cases d <;> rfl

theorem natDigitsAux_mem {fuel n : Nat} (h : n < fuel) :
    ∀ c ∈ natDigitsAux n fuel, ∃ d, d < 10 ∧ c = digitChar d := by
  induction fuel generalizing n with
  | zero => omega
  | succ fuel ih =>
    intro c hc
    by_cases h10 : n < 10
    · simp [natDigitsAux, h10] at hc
      exact ⟨n, h10, hc⟩
    · simp [natDigitsAux, h10] at hc
      rcases hc with hc | hc
      · have hdiv : n / 10 < fuel :=
          lt_of_lt_of_le (Nat.div_lt_self (by omega) (by norm_num)) (by omega)
        exact ih hdiv c hc
      · exact ⟨n % 10, Nat.mod_lt _ (by norm_num), hc⟩

theorem natDigitsAux_ne_nil {fuel n : Nat} (h : n < fuel) : natDigitsAux n fuel ≠ [] := by
  cases fuel with
  | zero => omega
  | succ fuel =>
    by_cases h10 : n < 10 <;> simp [natDigitsAux, h10]

theorem parseNatCore_natDigitsAux {fuel : Nat} :
    ∀ n, n < fuel → ∃ P, 0 < P ∧ ∀ acc rest,
      parseNatCore (natDigitsAux n fuel ++ rest) acc = parseNatCore rest (acc * P + n) := by
  induction fuel with
  | zero => omega
  | succ fuel ih =>
    intro n h
    by_cases h10 : n < 10
    · refine ⟨10, by norm_num, fun acc rest => ?_⟩
      simp [natDigitsAux, h10, parseNatCore, digitVal_digitChar h10]
    · have hdiv : n / 10 < fuel :=
        lt_of_lt_of_le (Nat.div_lt_self (by omega) (by norm_num)) (by omega)
      obtain ⟨P, hP, hIH⟩ := ih (n / 10) hdiv
      refine ⟨P * 10, by positivity, fun acc rest => ?_⟩
      have hmod : n % 10 < 10 := Nat.mod_lt _ (by norm_num)
      simp only [natDigitsAux, if_neg h10, List.append_assoc, List.singleton_append]
      rw [hIH acc (digitChar (n % 10) :: rest)]
      simp only [parseNatCore, digitVal_digitChar hmod]
      have hassoc : acc * (P * 10) = acc * P * 10 := (Nat.mul_assoc acc P 10).symm
      have : (acc * P + n / 10) * 10 + n % 10 = acc * (P * 10) + n := by
        rw [hassoc]
        generalize acc * P = A
        omega
      rw [this]

theorem parseNat_natDigits (n : Nat) : parseNat (natDigits n) = some n := by
  obtain ⟨P, _, h⟩ := parseNatCore_natDigitsAux n (show n < n + 1 by omega)
  have hne : natDigitsAux n (n + 1) ≠ [] := natDigitsAux_ne_nil (by omega)
  have h0 := h 0 []
  rw [List.append_nil] at h0
  unfold parseNat natDigits
  cases hd : natDigitsAux n (n + 1) with
  | nil => exact absurd hd hne
  | cons c cs =>
    rw [hd] at h0
    simpa [parseNatCore] using h0

theorem natDigits_head_ne (n : Nat) :
    ∃ c cs, natDigits n = c :: cs ∧ c ≠ '-' ∧ c ≠ ',' := by
  cases hd : natDigits n with
  | nil => exact absurd hd (natDigitsAux_ne_nil (by omega))
  | cons c cs =>
    refine ⟨c, cs, rfl, ?_, ?_⟩ <;>
    · have hm : c ∈ natDigits n := by rw [hd]; exact List.mem_cons_self _ _
      obtain ⟨d, hd10, rfl⟩ := natDigitsAux_mem (show n < n + 1 by omega) c hm
      interval_cases d <;> decide

theorem comma_not_mem_natDigits (n : Nat) : ',' ∉ natDigits n := by
  intro hm
  obtain ⟨d, hd10, hc⟩ := natDigitsAux_mem (show n < n + 1 by omega) ',' hm
  interval_cases d <;> exact absurd hc (by decide)

theorem comma_not_mem_renderInt (n : Int) : ',' ∉ renderInt n := by
  intro hm
  unfold renderInt at hm
  by_cases hn : n < 0
  · rw [if_pos hn] at hm
    rcases List.mem_cons.mp hm with hc | hc
    · exact absurd hc (by decide)
    · exact comma_not_mem_natDigits _ hc
  · rw [if_neg hn] at hm
    exact comma_not_mem_natDigits _ hm

theorem parseInt_renderInt (n : Int) : parseInt (renderInt n) = some n := by
  unfold renderInt
  by_cases hn : n < 0
  · rw [if_pos hn]
    simp only [parseInt, if_pos rfl, parseNat_natDigits]
    rw [Int.toNat_of_nonneg (by omega), neg_neg]
    simp
  · rw [if_neg hn]
    obtain ⟨c, cs, hcs, hcne, _⟩ := natDigits_head_ne n.toNat
    rw [hcs]
    simp only [parseInt, if_neg hcne]
    rw [← hcs]
    simp only [parseNat_natDigits]
    rw [Int.toNat_of_nonneg (by omega)]

theorem parseIntE_renderInt (n : Int) : parseIntE (renderInt n) = Except.ok n := by
  simp [parseIntE, parseInt_renderInt]

theorem parseAll_map_render (ns : List Int) :
    parseAll (ns.map renderInt) = Except.ok ns := by
  induction ns with
  | nil => rfl
  | cons n rest ih => simp [parseAll, parseIntE_renderInt, ih]

/-! ### Canonicalization of VLAN lists -/

theorem splitOn_intercalate_render (ns : List Int) (h : ns ≠ []) :
    (List.intercalate [','] (ns.map renderInt)).splitOn ',' = ns.map renderInt := by
  apply List.splitOn_intercalate
  · intro l hl
    obtain ⟨n, _, rfl⟩ := List.mem_map.mp hl
    exact comma_not_mem_renderInt n
  · simpa using h

theorem sort_vlans_intercalate_render (ns : List Int) (h : ns ≠ []) :
    sort_vlans (List.intercalate [','] (ns.map renderInt)) =
      Except.ok (List.intercalate [','] ((List.insertionSort (· ≤ ·) ns).map renderInt)) := by
  unfold sort_vlans
  rw [splitOn_intercalate_render ns h, parseAll_map_render]

theorem insertionSort_eq_of_perm {ns₁ ns₂ : List Int} (h : ns₁.Perm ns₂) :
    List.insertionSort (· ≤ ·) ns₁ = List.insertionSort (· ≤ ·) ns₂ :=
  List.eq_of_perm_of_sorted
    ((List.perm_insertionSort _ _).trans (h.trans (List.perm_insertionSort _ _).symm))
    (List.sorted_insertionSort _ _) (List.sorted_insertionSort _ _)

theorem sort_vlans_eq_of_perm {ns₁ ns₂ : List Int} (h : ns₁.Perm ns₂) :
    sort_vlans (List.intercalate [','] (ns₁.map renderInt)) =
      sort_vlans (List.intercalate [','] (ns₂.map renderInt)) := by
  rcases eq_or_ne ns₁ [] with rfl | h₁
  · have h2 : ns₂ = [] := List.Perm.eq_nil h.symm
    rw [h2]
  · have h₂ : ns₂ ≠ [] := fun hn => h₁ (List.Perm.eq_nil (hn ▸ h))
    rw [sort_vlans_intercalate_render ns₁ h₁, sort_vlans_intercalate_render ns₂ h₂,
        insertionSort_eq_of_perm h]

/-- C3: VLAN-list canonicalization is a deterministic normal form:
`"100,1,50"` normalizes to `"1,50,100"`, `"1-3,5"` normalizes to `"1,2,3,5"`
(range expansion, ascending numeric sort, re-join), and two attribute maps
that differ only in VLAN-list ordering or range compression compare equal once
both sides are canonicalized — the desired side through
`validate_trunk_allowed_vlans`, the actual side through instance resolution
(`instanceOf`). -/
theorem vlan_canonical_normal_form (s t : PyStr) (ns₁ ns₂ : List Int)
    (hs : expandInts s = Except.ok ns₁) (ht : expandInts t = Except.ok ns₂)
    (hperm : ns₁.Perm ns₂)
    (hse : s.isEmpty = false) (hte : t.isEmpty = false) :
    sort_vlans "100,1,50".data = Except.ok "1,50,100".data ∧
    validate_trunk_allowed_vlans (some "1-3,5".data) = Except.ok (some "1,2,3,5".data) ∧
    validate_trunk_allowed_vlans (some s) = validate_trunk_allowed_vlans (some t) ∧
    ∀ (name : PyStr) (r₁ r₂ : RawSwitchport),
      r₁.mode = r₂.mode → r₁.access_vlan = r₂.access_vlan →
      r₁.trunk_native_vlan = r₂.trunk_native_vlan → r₁.trunk_groups = r₂.trunk_groups →
      r₁.trunk_allowed_vlans = s → r₂.trunk_allowed_vlans = t →
      instanceOf name (some r₁) = instanceOf name (some r₂) := by
  refine ⟨by decide, by decide, ?_, ?_⟩
  · simp only [validate_trunk_allowed_vlans]
    rw [if_neg (by simp [hse]), if_neg (by simp [hte])]
    simp only [expand_range, hs, ht]
    rw [sort_vlans_eq_of_perm hperm]
  · intro name r₁ r₂ hm ha hn hg h₁ h₂
    simp only [instanceOf]
    rw [h₁, h₂, hm, ha, hn, hg]
    simp only [expand_range, hs, ht]
    rw [sort_vlans_eq_of_perm hperm]

/-- Witness for C3 at `s = "1-3,5"`, `t = "3,1,2,5"`. -/
theorem vlan_canonical_normal_form_witness :
    validate_trunk_allowed_vlans (some "1-3,5".data) =
      validate_trunk_allowed_vlans (some "3,1,2,5".data) :=
  (vlan_canonical_normal_form "1-3,5".data "3,1,2,5".data [1, 2, 3, 5] [3, 1, 2, 5]
    (by decide) (by decide) (by decide) (by decide) (by decide)).2.2.1

/-! ### Properties of the reconciliation engine -/

theorem update_no_fail (env : Env) (cm : Bool)
    (hok : ∀ k, env.setterFails k = false) :
    ∀ (l : List (String × Value)) (ch : AttrMap) (tr : List Call),
      update env cm l ch tr = ⟨ch ++ recordedChanges l, tr ++ setCalls env cm l, none⟩ := by
  intro l
  induction l with
  | nil => intro ch tr; simp [update, recordedChanges, setCalls]
  | cons kv rest ih =>
    intro ch tr
    obtain ⟨k, v⟩ := kv
    cases v with
    | none =>
      rw [show update env cm ((k, none) :: rest) ch tr = update env cm rest ch tr from rfl, ih]
      simp [recordedChanges, setCalls]
    | some s =>
      simp only [update]
      cases hset : env.hasSetter k with
      | false =>
        rw [if_neg (by simp [hset]), ih]
        simp [recordedChanges, setCalls, List.filterMap_cons, hset]
      | true =>
        cases hcm : cm with
        | true =>
          rw [hcm] at ih
          rw [if_neg (by simp [hcm]), ih]
          simp [recordedChanges, setCalls, List.filterMap_cons, hset, hcm]
        | false =>
          rw [hcm] at ih
          rw [if_pos (by simp [hset, hcm]), if_neg (by simp [hok k]), ih]
          simp [recordedChanges, setCalls, List.filterMap_cons, hset, hcm]

theorem itemsDiff_eq_nil {d a : AttrMap} (h : ∀ kv ∈ d, kv ∈ a) :
    itemsDiff d a = [] := by
  simp only [itemsDiff, List.filter_eq_nil_iff]
  intro kv hkv
  simp [h kv hkv]

theorem mem_itemsDiff {d a : AttrMap} {kv : String × Value} :
    kv ∈ itemsDiff d a ↔ kv ∈ d ∧ kv ∉ a := by
  simp [itemsDiff]

theorem mem_recordedChanges {l : AttrMap} {k : String} {v : PyStr} :
    (k, some v) ∈ recordedChanges l ↔ (k, some v) ∈ l := by
  simp [recordedChanges]

theorem none_not_mem_recordedChanges {l : AttrMap} {k : String} :
    (k, (none : Value)) ∉ recordedChanges l := by
  simp [recordedChanges]

theorem mem_iff_get {a : AttrMap} (hnd : (a.map Prod.fst).Nodup) {k : String} {v : PyStr} :
    (k, some v) ∈ a ↔ AttrMap.get a k = some v := by
  induction a with
  | nil => simp [AttrMap.get]
  | cons p rest ih =>
    obtain ⟨k', v'⟩ := p
    rw [List.map_cons, List.nodup_cons] at hnd
    obtain ⟨hk', hnd'⟩ := hnd
    by_cases hkk : k' = k
    · subst hkk
      have hnot : (k', some v) ∉ rest := fun hm => hk' (List.mem_map.mpr ⟨_, hm, rfl⟩)
      simp only [AttrMap.get, if_pos (show ((k' : String) == k') = true by simp)]
      constructor
      · intro hm
        rcases List.mem_cons.mp hm with he | hm2
        · exact (congrArg Prod.snd he).symm
        · exact absurd hm2 hnot
      · intro hv
        rw [List.mem_cons]
        exact Or.inl (by rw [hv])
    · simp only [AttrMap.get, if_neg (show ¬((k' == k) = true) by simp [hkk])]
      rw [List.mem_cons]
      constructor
      · rintro (he | hm)
        · exact absurd (congrArg Prod.fst he).symm hkk
        · exact (ih hnd').mp hm
      · intro hg
        exact Or.inr ((ih hnd').mpr hg)

theorem dictUpdate_nil (m : AttrMap) : dictUpdate m [] = m := by
  simp [dictUpdate]

/-- C1: when every desired attribute pair already equals the resolved actual
state (canonical forms agree) and the actual state is `present` as desired,
one reconciliation pass succeeds with `changed = false`, `changes = {}`, and
the only remote call it adds is the read-only instance query — no create,
remove, or `set_*` mutation. -/
theorem flush_idempotent (env : Env) (m : EosAnsibleModule)
    (hds : m.desiredState = some "present".data)
    (hcache : m.instCache = none)
    (hch : m.changedFlag = false)
    (hcr : m.changesRes = [])
    (hdbg : m.debugFlag = false)
    (hstate : AttrMap.get (env.resolveSeq m.resolveCount) "state" = some "present".data)
    (hconv : ∀ kv ∈ m.attributes, kv ∈ env.resolveSeq m.resolveCount) :
    (flush env m).2 = none ∧
    (flush env m).1.changedFlag = false ∧
    (flush env m).1.changesRes = [] ∧
    (flush env m).1.trace = m.trace ++ [Call.query] ∧
    (flush env m).1.trace.filter Call.isMutation = m.trace.filter Call.isMutation := by
  have hdiff : itemsDiff m.attributes (env.resolveSeq m.resolveCount) = [] :=
    itemsDiff_eq_nil hconv
  have hne : (some "present".data : Value) ≠ some "absent".data := by decide
  have hq : Call.isMutation Call.query = false := rfl
  simp [flush, hds, hcache, getInstance, hstate, hne, hdbg, hdiff, update, dictUpdate_nil,
    finalize, refresh, hch, hcr, List.filter_append, hq]

/-- Witness for C1 on a concrete converged access port. -/
theorem flush_idempotent_witness :
    (flush c1Env c1Mod).2 = none ∧
    (flush c1Env c1Mod).1.changedFlag = false ∧
    (flush c1Env c1Mod).1.changesRes = [] ∧
    (flush c1Env c1Mod).1.trace = c1Mod.trace ++ [Call.query] ∧
    (flush c1Env c1Mod).1.trace.filter Call.isMutation
      = c1Mod.trace.filter Call.isMutation :=
  flush_idempotent c1Env c1Mod (by decide) (by decide) (by decide) (by decide) (by decide)
    (by decide) (by decide)

/-- C2: the changes recorded by `update` over the viewitems-difference
changeset are exactly the (key, desired value) pairs whose value is non-null
and differs from `actual.get(key)` under canonical-form equality; keys present
only in the actual map never appear; null-valued desired entries are never
recorded; and on the concrete example the recorded changes of
compute({mode: trunk, access_vlan: 10}, {mode: access, access_vlan: 10}) are
exactly {mode: trunk}. -/
theorem compute_changes_correct (env : Env) (cm : Bool) (d a : AttrMap)
    (k : String) (v : PyStr)
    (hok : ∀ key, env.setterFails key = false)
    (hndd : (d.map Prod.fst).Nodup)
    (hnda : (a.map Prod.fst).Nodup) :
    ((k, some v) ∈ (update env cm (itemsDiff d a) [] []).changes ↔
      AttrMap.get d k = some v ∧ AttrMap.get a k ≠ some v) ∧
    (∀ key, (key, (none : Value)) ∉ (update env cm (itemsDiff d a) [] []).changes) ∧
    (update env cm (itemsDiff
        [("mode", some "trunk".data), ("access_vlan", some "10".data)]
        [("mode", some "access".data), ("access_vlan", some "10".data)]) [] []).changes
      = [("mode", some "trunk".data)] := by
  have hu := update_no_fail env cm hok
  simp only [hu, List.nil_append]
  refine ⟨?_, ?_, ?_⟩
  · rw [mem_recordedChanges, mem_itemsDiff]
    constructor
    · rintro ⟨hd, hna⟩
      exact ⟨(mem_iff_get hndd).mp hd, fun hg => hna ((mem_iff_get hnda).mpr hg)⟩
    · rintro ⟨hd, hna⟩
      exact ⟨(mem_iff_get hndd).mpr hd, fun hm => hna ((mem_iff_get hnda).mp hm)⟩
  · intro key
    exact none_not_mem_recordedChanges
  · decide

/-- Witness for C2 on the spec's concrete example. -/
theorem compute_changes_correct_witness :
    ((("mode" : String), some "trunk".data) ∈
      (update c1Env false (itemsDiff
        [("mode", some "trunk".data), ("access_vlan", some "10".data)]
        [("mode", some "access".data), ("access_vlan", some "10".data)]) [] []).changes ↔
      AttrMap.get [("mode", some "trunk".data), ("access_vlan", some "10".data)] "mode"
          = some "trunk".data ∧
      AttrMap.get [("mode", some "access".data), ("access_vlan", some "10".data)] "mode"
          ≠ some "trunk".data) ∧
    (∀ key, (key, (none : Value)) ∉
      (update c1Env false (itemsDiff
        [("mode", some "trunk".data), ("access_vlan", some "10".data)]
        [("mode", some "access".data), ("access_vlan", some "10".data)]) [] []).changes) ∧
    (update c1Env false (itemsDiff
        [("mode", some "trunk".data), ("access_vlan", some "10".data)]
        [("mode", some "access".data), ("access_vlan", some "10".data)]) [] []).changes
      = [("mode", some "trunk".data)] :=
  compute_changes_correct c1Env false
    [("mode", some "trunk".data), ("access_vlan", some "10".data)]
    [("mode", some "access".data), ("access_vlan", some "10".data)]
    "mode" "trunk".data (fun _ => rfl) (by decide) (by decide)

theorem setCalls_all_set (env : Env) (cm : Bool) (l : AttrMap) :
    ∀ c ∈ setCalls env cm l, ∃ k, c = Call.set k := by
  intro c hc
  obtain ⟨⟨k2, v2⟩, _, hf⟩ := List.mem_filterMap.mp hc
  cases v2 with
  | none => simp at hf
  | some s =>
    simp only at hf
    split at hf
    · exact ⟨k2, (Option.some.inj hf).symm⟩
    · simp at hf

theorem count_create_setCalls (env : Env) (cm : Bool) (l : AttrMap) :
    (setCalls env cm l).count Call.create = 0 := by
  rw [List.count_eq_zero]
  intro hm
  obtain ⟨k2, hk2⟩ := setCalls_all_set env cm l Call.create hm
  exact Call.noConfusion hk2

theorem count_remove_setCalls (env : Env) (cm : Bool) (l : AttrMap) :
    (setCalls env cm l).count Call.remove = 0 := by
  rw [List.count_eq_zero]
  intro hm
  obtain ⟨k2, hk2⟩ := setCalls_all_set env cm l Call.remove hm
  exact Call.noConfusion hk2

/-- C5: when desired state is `present` and the resolved actual state is
`absent`, the pass invokes `create` exactly once, marks `changed = true`,
invalidates the cached actual state, and runs the attribute reconciliation
(changeset and setters) against the freshly re-resolved actual state
(`env.resolveSeq (m.resolveCount + 1)`). -/
theorem flush_present_creates (env : Env) (m : EosAnsibleModule)
    (hds : m.desiredState = some "present".data)
    (hcache : m.instCache = none)
    (hcm : m.checkMode = false)
    (hcr : m.changesRes = [])
    (hdbg : m.debugFlag = false)
    (hok : ∀ key, env.setterFails key = false)
    (habs : AttrMap.get (env.resolveSeq m.resolveCount) "state" = some "absent".data) :
    (flush env m).2 = none ∧
    (flush env m).1.changedFlag = true ∧
    (flush env m).1.trace = m.trace ++ [Call.query, Call.create, Call.query]
      ++ setCalls env false (itemsDiff m.attributes (env.resolveSeq (m.resolveCount + 1))) ∧
    (flush env m).1.changesRes
      = recordedChanges (itemsDiff m.attributes (env.resolveSeq (m.resolveCount + 1))) ∧
    (flush env m).1.trace.count Call.create = m.trace.count Call.create + 1 := by
  have hu := update_no_fail env m.checkMode hok
  rw [hcm] at hu
  have key : (flush env m).2 = none ∧
      (flush env m).1.changedFlag = true ∧
      (flush env m).1.trace = m.trace ++ [Call.query, Call.create, Call.query]
        ++ setCalls env false (itemsDiff m.attributes (env.resolveSeq (m.resolveCount + 1))) ∧
      (flush env m).1.changesRes
        = recordedChanges (itemsDiff m.attributes (env.resolveSeq (m.resolveCount + 1))) := by
    by_cases hemp : (recordedChanges
        (itemsDiff m.attributes (env.resolveSeq (m.resolveCount + 1)))).isEmpty = true
    · have hnil : recordedChanges
          (itemsDiff m.attributes (env.resolveSeq (m.resolveCount + 1))) = [] := by
        simpa using hemp
      simp [flush, hds, hcache, getInstance, habs, hcm, hdbg, doCreate, refresh, finalize,
        hu, hnil, dictUpdate_nil, hcr]
    · simp [flush, hds, hcache, getInstance, habs, hcm, hdbg, doCreate, refresh, finalize,
        hu, hemp, hcr]
  obtain ⟨h1, h2, h3, h4⟩ := key
  refine ⟨h1, h2, h3, h4, ?_⟩
  rw [h3]
  simp [List.count_append, count_create_setCalls, List.count_cons]

/-- Witness for C5 on a concrete absent port. -/
theorem flush_present_creates_witness :
    (flush c5Env c5Mod).2 = none ∧
    (flush c5Env c5Mod).1.changedFlag = true ∧
    (flush c5Env c5Mod).1.trace = c5Mod.trace ++ [Call.query, Call.create, Call.query]
      ++ setCalls c5Env false
          (itemsDiff c5Mod.attributes (c5Env.resolveSeq (c5Mod.resolveCount + 1))) ∧
    (flush c5Env c5Mod).1.changesRes
      = recordedChanges (itemsDiff c5Mod.attributes (c5Env.resolveSeq (c5Mod.resolveCount + 1))) ∧
    (flush c5Env c5Mod).1.trace.count Call.create = c5Mod.trace.count Call.create + 1 :=
  flush_present_creates c5Env c5Mod (by decide) (by decide) (by decide) (by decide) (by decide)
    (fun _ => rfl) (by decide)

/-- C6: with desired state `absent`, a resolved `present` actual state makes
the pass invoke `remove` exactly once with `changed = true` and no attribute
setter calls; a resolved `absent` actual state makes the pass a no-op: no
remote mutation and `changed` unchanged. -/
theorem flush_absent_removes (env : Env) (m : EosAnsibleModule)
    (hs : m.stateful = true)
    (hds : m.desiredState = some "absent".data)
    (hcache : m.instCache = none)
    (hcm : m.checkMode = false)
    (hdbg : m.debugFlag = false) :
    (flush env m).2 = none ∧
    (flush env m).1.changesRes = m.changesRes ∧
    (AttrMap.get (env.resolveSeq m.resolveCount) "state" = some "present".data →
      (flush env m).1.changedFlag = true ∧
      (flush env m).1.trace = m.trace ++ [Call.query, Call.remove] ∧
      (flush env m).1.trace.count Call.remove = m.trace.count Call.remove + 1) ∧
    (AttrMap.get (env.resolveSeq m.resolveCount) "state" = some "absent".data →
      (flush env m).1.changedFlag = m.changedFlag ∧
      (flush env m).1.trace = m.trace ++ [Call.query] ∧
      (flush env m).1.trace.filter Call.isMutation = m.trace.filter Call.isMutation) := by
  have hne1 : (some "absent".data : Value) ≠ some "present".data := by decide
  have hq : Call.isMutation Call.query = false := rfl
  by_cases hst : AttrMap.get (env.resolveSeq m.resolveCount) "state" = some "present".data
  · have key : (flush env m).2 = none ∧
        (flush env m).1.changesRes = m.changesRes ∧
        (flush env m).1.changedFlag = true ∧
        (flush env m).1.trace = m.trace ++ [Call.query, Call.remove] := by
      simp [flush, hds, hs, hne1, hcache, getInstance, hst, doRemove, hcm, finalize,
        refresh, hdbg]
    obtain ⟨k1, k2, k3, k4⟩ := key
    refine ⟨k1, k2, fun _ => ⟨k3, k4, ?_⟩, fun h2 => absurd (hst.symm.trans h2) (by decide)⟩
    rw [k4]
    simp [List.count_append, List.count_cons]
  · have key : (flush env m).2 = none ∧
        (flush env m).1.changesRes = m.changesRes ∧
        (flush env m).1.changedFlag = m.changedFlag ∧
        (flush env m).1.trace = m.trace ++ [Call.query] := by
      simp [flush, hds, hs, hne1, hcache, getInstance, hst, hcm, finalize, refresh, hdbg]
    obtain ⟨k1, k2, k3, k4⟩ := key
    refine ⟨k1, k2, fun h2 => absurd h2 hst, fun _ => ⟨k3, k4, ?_⟩⟩
    rw [k4]
    simp [List.filter_append, hq]

/-- Witness for C6 on a concrete present port that is to be removed. -/
theorem flush_absent_removes_witness :
    (flush c6Env c6Mod).2 = none ∧
    (flush c6Env c6Mod).1.changesRes = c6Mod.changesRes ∧
    (AttrMap.get (c6Env.resolveSeq c6Mod.resolveCount) "state" = some "present".data →
      (flush c6Env c6Mod).1.changedFlag = true ∧
      (flush c6Env c6Mod).1.trace = c6Mod.trace ++ [Call.query, Call.remove] ∧
      (flush c6Env c6Mod).1.trace.count Call.remove
        = c6Mod.trace.count Call.remove + 1) ∧
    (AttrMap.get (c6Env.resolveSeq c6Mod.resolveCount) "state" = some "absent".data →
      (flush c6Env c6Mod).1.changedFlag = c6Mod.changedFlag ∧
      (flush c6Env c6Mod).1.trace = c6Mod.trace ++ [Call.query] ∧
      (flush c6Env c6Mod).1.trace.filter Call.isMutation
        = c6Mod.trace.filter Call.isMutation) :=
  flush_absent_removes c6Env c6Mod (by decide) (by decide) (by decide) (by decide) (by decide)

/-- Counterexample to C7 as stated: in stateless mode, with the actual state
resolved as `absent`, the reconciliation pass DOES invoke `create` — the
presence check inside the attribute-reconciliation branch is not skipped. -/
theorem stateless_creates_counterexample :
    c7Mod.stateful = false ∧ Call.create ∈ (flush c7Env c7Mod).1.trace := by decide

/-- C7 (amended): in stateless mode the pass takes the attribute
reconciliation path regardless of the desired state and never invokes
`remove`; but it does not skip the presence check — when the resolved actual
state is `absent`, `create` is still invoked (outside check mode) before the
attribute reconciliation, which then runs against the re-resolved state. -/
theorem flush_stateless (env : Env) (m : EosAnsibleModule)
    (hs : m.stateful = false)
    (hcache : m.instCache = none)
    (hcm : m.checkMode = false)
    (hcr : m.changesRes = [])
    (hdbg : m.debugFlag = false)
    (hok : ∀ key, env.setterFails key = false) :
    (flush env m).2 = none ∧
    (flush env m).1.trace.count Call.remove = m.trace.count Call.remove ∧
    (AttrMap.get (env.resolveSeq m.resolveCount) "state" = some "absent".data →
      (flush env m).1.trace = m.trace ++ [Call.query, Call.create, Call.query]
        ++ setCalls env false (itemsDiff m.attributes (env.resolveSeq (m.resolveCount + 1))) ∧
      (flush env m).1.changesRes
        = recordedChanges (itemsDiff m.attributes (env.resolveSeq (m.resolveCount + 1)))) ∧
    (AttrMap.get (env.resolveSeq m.resolveCount) "state" ≠ some "absent".data →
      (flush env m).1.trace = m.trace ++ [Call.query]
        ++ setCalls env false (itemsDiff m.attributes (env.resolveSeq m.resolveCount)) ∧
      (flush env m).1.changesRes
        = recordedChanges (itemsDiff m.attributes (env.resolveSeq m.resolveCount))) := by
  have hu := update_no_fail env m.checkMode hok
  rw [hcm] at hu
  by_cases hst : AttrMap.get (env.resolveSeq m.resolveCount) "state" = some "absent".data
  · have key : (flush env m).2 = none ∧
        (flush env m).1.trace = m.trace ++ [Call.query, Call.create, Call.query]
          ++ setCalls env false (itemsDiff m.attributes (env.resolveSeq (m.resolveCount + 1))) ∧
        (flush env m).1.changesRes
          = recordedChanges (itemsDiff m.attributes (env.resolveSeq (m.resolveCount + 1))) := by
      by_cases hemp : (recordedChanges
          (itemsDiff m.attributes (env.resolveSeq (m.resolveCount + 1)))).isEmpty = true
      · have hnil : recordedChanges
            (itemsDiff m.attributes (env.resolveSeq (m.resolveCount + 1))) = [] := by
          simpa using hemp
        simp [flush, hs, hcache, getInstance, hst, hcm, hdbg, doCreate, refresh, finalize,
          hu, hnil, dictUpdate_nil, hcr]
      · simp [flush, hs, hcache, getInstance, hst, hcm, hdbg, doCreate, refresh, finalize,
          hu, hemp, hcr]
    obtain ⟨k1, k2, k3⟩ := key
    refine ⟨k1, ?_, fun _ => ⟨k2, k3⟩, fun h => absurd hst h⟩
    rw [k2]
    simp [List.count_append, count_remove_setCalls, List.count_cons]
  · have key : (flush env m).2 = none ∧
        (flush env m).1.trace = m.trace ++ [Call.query]
          ++ setCalls env false (itemsDiff m.attributes (env.resolveSeq m.resolveCount)) ∧
        (flush env m).1.changesRes
          = recordedChanges (itemsDiff m.attributes (env.resolveSeq m.resolveCount)) := by
      by_cases hemp : (recordedChanges
          (itemsDiff m.attributes (env.resolveSeq m.resolveCount))).isEmpty = true
      · have hnil : recordedChanges
            (itemsDiff m.attributes (env.resolveSeq m.resolveCount)) = [] := by
          simpa using hemp
        simp [flush, hs, hcache, getInstance, hst, hcm, hdbg, refresh, finalize,
          hu, hnil, dictUpdate_nil, hcr]
      · simp [flush, hs, hcache, getInstance, hst, hcm, hdbg, refresh, finalize,
          hu, hemp, hcr]
    obtain ⟨k1, k2, k3⟩ := key
    refine ⟨k1, ?_, fun h => absurd h hst, fun _ => ⟨k2, k3⟩⟩
    rw [k2]
    simp [List.count_append, count_remove_setCalls, List.count_cons]

/-- Witness for the amended C7 on a concrete stateless module. -/
theorem flush_stateless_witness :
    (flush c7Env c7Mod).2 = none ∧
    (flush c7Env c7Mod).1.trace.count Call.remove = c7Mod.trace.count Call.remove ∧
    (AttrMap.get (c7Env.resolveSeq c7Mod.resolveCount) "state" = some "absent".data →
      (flush c7Env c7Mod).1.trace = c7Mod.trace ++ [Call.query, Call.create, Call.query]
        ++ setCalls c7Env false
            (itemsDiff c7Mod.attributes (c7Env.resolveSeq (c7Mod.resolveCount + 1))) ∧
      (flush c7Env c7Mod).1.changesRes
        = recordedChanges (itemsDiff c7Mod.attributes (c7Env.resolveSeq (c7Mod.resolveCount + 1)))) ∧
    (AttrMap.get (c7Env.resolveSeq c7Mod.resolveCount) "state" ≠ some "absent".data →
      (flush c7Env c7Mod).1.trace = c7Mod.trace ++ [Call.query]
        ++ setCalls c7Env false
            (itemsDiff c7Mod.attributes (c7Env.resolveSeq c7Mod.resolveCount)) ∧
      (flush c7Env c7Mod).1.changesRes
        = recordedChanges (itemsDiff c7Mod.attributes (c7Env.resolveSeq c7Mod.resolveCount))) :=
  flush_stateless c7Env c7Mod (by decide) (by decide) (by decide) (by decide) (by decide)
    (fun _ => rfl)

/-- Counterexample to C4 as stated: with a two-attribute changeset whose first
setter succeeds and whose second setter raises, the pass is fatal and the
module's result dict is left untouched — the first attribute's change is NOT
recorded in the `changes` of the result delivered to the caller and `changed`
is NOT true: `fail_json` delivers only the error message. -/
theorem setter_failure_counterexample :
    (flush c4Env c4Mod).2 = some "CommandError: set_access_vlan".data ∧
    (flush c4Env c4Mod).1.trace = [Call.query, Call.set "mode"] ∧
    (flush c4Env c4Mod).1.changesRes = [] ∧
    (flush c4Env c4Mod).1.changedFlag = false := by decide

/-- C4 (amended): for a two-attribute changeset where the first setter
succeeds and the second raises, the first setter's device call is made and
never rolled back, the second attribute is not applied and all remaining
setters are skipped, and the error is surfaced as fatal with the raised
message; however the failure delivered to the caller carries only that
message — the result's `changes` stays empty and `changed` stays false, since
`fail_json` discards the result dict. -/
theorem setter_failure_partial_apply (env : Env) (m : EosAnsibleModule)
    (k₁ k₂ : String) (v₁ v₂ : PyStr)
    (hds : m.desiredState = some "present".data)
    (hcache : m.instCache = none)
    (hcm : m.checkMode = false)
    (hch : m.changedFlag = false)
    (hcr : m.changesRes = [])
    (hpres : AttrMap.get (env.resolveSeq m.resolveCount) "state" = some "present".data)
    (hcs : itemsDiff m.attributes (env.resolveSeq m.resolveCount)
      = [(k₁, some v₁), (k₂, some v₂)])
    (hset1 : env.hasSetter k₁ = true) (hok1 : env.setterFails k₁ = false)
    (hset2 : env.hasSetter k₂ = true) (hfail2 : env.setterFails k₂ = true) :
    (flush env m).2 = some (("CommandError: set_" ++ k₂).data) ∧
    (flush env m).1.trace = m.trace ++ [Call.query, Call.set k₁] ∧
    Call.set k₂ ∉ (flush env m).1.trace.drop m.trace.length ∧
    (flush env m).1.changesRes = [] ∧
    (flush env m).1.changedFlag = false := by
  have hne : (some "present".data : Value) ≠ some "absent".data := by decide
  have key : (flush env m).2 = some (("CommandError: set_" ++ k₂).data) ∧
      (flush env m).1.trace = m.trace ++ [Call.query, Call.set k₁] ∧
      (flush env m).1.changesRes = [] ∧
      (flush env m).1.changedFlag = false := by
    simp [flush, hds, hcache, getInstance, hpres, hne, hcs, update, hset1, hok1, hset2,
      hfail2, hcm, hch, hcr]
  obtain ⟨k1, k2, k3, k4⟩ := key
  refine ⟨k1, k2, ?_, k3, k4⟩
  rw [k2]
  intro hm
  rw [List.drop_left] at hm
  rcases List.mem_cons.mp hm with h | h
  · exact Call.noConfusion h
  · rcases List.mem_cons.mp h with h2 | h2
    · have := Call.set.inj h2
      rw [this] at hfail2
      rw [hfail2] at hok1
      exact Bool.noConfusion hok1
    · cases h2

/-- Witness for the amended C4 on the concrete two-attribute scenario. -/
theorem setter_failure_partial_apply_witness :
    (flush c4Env c4Mod).2 = some (("CommandError: set_" ++ "access_vlan").data) ∧
    (flush c4Env c4Mod).1.trace = c4Mod.trace ++ [Call.query, Call.set "mode"] ∧
    Call.set "access_vlan" ∉ (flush c4Env c4Mod).1.trace.drop c4Mod.trace.length ∧
    (flush c4Env c4Mod).1.changesRes = [] ∧
    (flush c4Env c4Mod).1.changedFlag = false :=
  setter_failure_partial_apply c4Env c4Mod "mode" "access_vlan" "trunk".data "10".data
    (by decide) (by decide) (by decide) (by decide) (by decide) (by decide) (by decide)
    (by decide) (by decide) (by decide) (by decide)

/-- C8: if a registered validator fails on a declared attribute value, the
whole operation aborts before any remote interaction — no connect, no query,
no mutation has been performed — and the failure surfaces the validator's
original error message unchanged. -/
theorem validator_failure_aborts (env : InitEnv) (stateful checkMode debugFlag : Bool)
    (attrs : AttrMap) (msg : PyStr)
    (h : validateAttrs attrs = Except.error msg) :
    initModule env stateful checkMode debugFlag attrs = Except.error (msg, []) := by
  simp [initModule, h]

/-- Witness for C8: a malformed `trunk_allowed_vlans` value aborts with the
`int()` error and an empty remote-call list. -/
theorem validator_failure_aborts_witness :
    initModule ⟨false⟩ true false false
      [("name", some "Ethernet1".data), ("trunk_allowed_vlans", some "abc".data)]
      = Except.error ("invalid literal for int(): abc".data, []) :=
  validator_failure_aborts ⟨false⟩ true false false
    [("name", some "Ethernet1".data), ("trunk_allowed_vlans", some "abc".data)]
    "invalid literal for int(): abc".data (by decide)

/-- C9: if the connection step fails, module construction aborts with the
descriptive `unable to connect` message and an empty remote-call list — in
particular before any create, remove, or setter call — and no module value is
produced, so no reconciliation pass can run. -/
theorem connect_failure_aborts (env : InitEnv) (stateful checkMode debugFlag : Bool)
    (attrs vattrs : AttrMap)
    (hv : validateAttrs attrs = Except.ok vattrs)
    (hcf : env.connectFails = true) :
    initModule env stateful checkMode debugFlag attrs
      = Except.error ("unable to connect to node".data, []) := by
  simp [initModule, hv, hcf]

/-- Witness for C9 with an unreachable device. -/
theorem connect_failure_aborts_witness :
    initModule ⟨true⟩ true false false [("name", some "Ethernet1".data)]
      = Except.error ("unable to connect to node".data, []) :=
  connect_failure_aborts ⟨true⟩ true false false [("name", some "Ethernet1".data)]
    [("name", some "Ethernet1".data)] (by decide) rfl

/-- C10: a changeset entry with a non-null desired value but no registered
`set_<attr>` function is skipped-but-reported: the entry appears in the
result's `changes`, forces `changed = true`, and no device call is made for
it. -/
theorem no_setter_skip_but_report (env : Env) (m : EosAnsibleModule)
    (k : String) (v : PyStr)
    (hds : m.desiredState = some "present".data)
    (hcache : m.instCache = none)
    (hdbg : m.debugFlag = false)
    (hcr : m.changesRes = [])
    (htr : m.trace = [])
    (hok : ∀ key, env.setterFails key = false)
    (hpres : AttrMap.get (env.resolveSeq m.resolveCount) "state" = some "present".data)
    (hmem : (k, some v) ∈ m.attributes)
    (hnin : (k, some v) ∉ env.resolveSeq m.resolveCount)
    (hns : env.hasSetter k = false) :
    (flush env m).2 = none ∧
    (k, some v) ∈ (flush env m).1.changesRes ∧
    (flush env m).1.changedFlag = true ∧
    Call.set k ∉ (flush env m).1.trace := by
  have hu := update_no_fail env m.checkMode hok
  have hrec : (k, some v) ∈ recordedChanges (itemsDiff m.attributes
      (env.resolveSeq m.resolveCount)) :=
    mem_recordedChanges.mpr (mem_itemsDiff.mpr ⟨hmem, hnin⟩)
  have hnonnil : recordedChanges (itemsDiff m.attributes
      (env.resolveSeq m.resolveCount)) ≠ [] :=
    List.ne_nil_of_mem hrec
  have hset : Call.set k ∉ setCalls env m.checkMode
      (itemsDiff m.attributes (env.resolveSeq m.resolveCount)) := by
    intro hm2
    obtain ⟨⟨k2, v2⟩, _, hf⟩ := List.mem_filterMap.mp hm2
    cases v2 with
    | none => simp at hf
    | some s =>
      simp only at hf
      split at hf
      next hcond =>
        have hk2 : k2 = k := Call.set.inj (Option.some.inj hf)
        rw [hk2, Bool.and_eq_true] at hcond
        rw [hns] at hcond
        exact Bool.noConfusion hcond.1
      next => simp at hf
  have hne : (some "present".data : Value) ≠ some "absent".data := by decide
  have hnq : Call.set k ≠ Call.query := Call.noConfusion
  simp [flush, hds, hcache, getInstance, hpres, hne, hdbg, hu, hnonnil, hcr, htr,
    finalize, refresh, hrec, List.mem_append, hset, hnq]

/-- Witness for C10: `mode` has no registered setter here, yet it is reported
in `changes` with `changed = true` and without any device call. -/
theorem no_setter_skip_but_report_witness :
    (flush c10Env c10Mod).2 = none ∧
    (("mode" : String), some "trunk".data) ∈ (flush c10Env c10Mod).1.changesRes ∧
    (flush c10Env c10Mod).1.changedFlag = true ∧
    Call.set "mode" ∉ (flush c10Env c10Mod).1.trace :=
  no_setter_skip_but_report c10Env c10Mod "mode" "trunk".data
    (by decide) (by decide) (by decide) (by decide) (by decide) (fun _ => rfl)
    (by decide) (by decide) (by decide) (by decide)
